import Mathlib

/-!
Verification development for the z2k2 caching gateway.

Shallow embedding of the repository's Python modules:
* `z2k2/twitter_parser.py` — GraphQL response normalizer,
* `z2k2/twitter_client.py` — upstream client and its failure classification,
* `z2k2/sqlite_cache.py`, `z2k2/postgres_cache.py` — jittered-TTL caches,
* `z2k2/session_manager.py` — round-robin credential pool,
* `app.py` — request handlers.

JSON trees are modelled by the inductive `Json`; Python dictionary/sequence
operations (`d.get`, `in`, subscripting, iteration, truthiness, `int(...)`,
`str.isdigit`) are modelled by executable helpers that raise the same
exception classes (`PyErr`) Python would raise.  External library
boundaries (the `json` module, `datetime.fromisoformat`, `random.uniform`,
the network) are parameters of the embedding.
-/

/-- Model of a Python/JSON value as received from `response.json()`.
Numbers are integers (all numeric fields in the exercised payloads are
integral). -/
inductive Json where
  | null
  | bool (b : Bool)
  | num (n : Int)
  | str (s : String)
  | arr (items : List Json)
  | obj (fields : List (String × Json))
deriving Repr

/-- Python `v == "lit"` for a string literal: true exactly when `v` is that
string (Python equality between a string and any other type is `False`). -/
def Json.eqStr : Json → String → Bool
  | .str t, s => t == s
  | _, _ => false

/-- Python exception classes raised by the operations the embedding uses. -/
inductive PyErr where
  | attributeError (msg : String)
  | valueError (msg : String)
  | typeError (msg : String)
  | keyError (msg : String)
  | indexError (msg : String)
  | runtimeError (msg : String)
deriving DecidableEq, Repr

/-- First-match association lookup on an object's field list (Python dicts
have unique keys, so first match equals the dict lookup). -/
def Json.lookupField : List (String × Json) → String → Option Json
  | [], _ => Option.none
  | (k, v) :: rest, key => if k = key then some v else Json.lookupField rest key

/-- Python truthiness of a value: `None`, `False`, `0`, `""`, `[]`, `{}` are
falsy, everything else truthy. -/
def Json.truthy : Json → Bool
  | .null => false
  | .bool b => b
  | .num n => n != 0
  | .str s => s != ""
  | .arr l => !l.isEmpty
  | .obj fs => !fs.isEmpty

/-- Python `d.get(k)` (default `None`): `Option.none` models the `None`
result, which arises both when the key is absent and when it maps to JSON
null.  Calling `.get` on a non-dict raises `AttributeError`. -/
def Json.get? : Json → String → Except PyErr (Option Json)
  | .obj fs, k =>
      match Json.lookupField fs k with
      | some .null => .ok Option.none
      | some v => .ok (some v)
      | Option.none => .ok Option.none
  | _, _ => .error (.attributeError "get")

/-- Python `d.get(k, default)`: the default is used only when the key is
absent; a stored JSON null is returned as `Json.null` (Python `None`). -/
def Json.getD : Json → String → Json → Except PyErr Json
  | .obj fs, k, dflt =>
      match Json.lookupField fs k with
      | some v => .ok v
      | Option.none => .ok dflt
  | _, _, _ => .error (.attributeError "get")

/-- Python `d[k]` on the result of a successful `in` check. -/
def Json.subKey : Json → String → Except PyErr Json
  | .obj fs, k =>
      match Json.lookupField fs k with
      | some v => .ok v
      | Option.none => .error (.keyError k)
  | _, _ => .error (.typeError "subscript")

/-- Python `v[0]`. -/
def Json.sub0 : Json → Except PyErr Json
  | .arr (x :: _) => .ok x
  | .arr [] => .error (.indexError "list index out of range")
  | .str s =>
      match s.data with
      | c :: _ => .ok (.str (String.mk [c]))
      | [] => .error (.indexError "string index out of range")
  | _ => .error (.typeError "subscript")

/-- Substring test on character lists (Python `needle in haystack` for
strings); an empty needle is contained in everything. -/
def charsContains (needle : List Char) : List Char → Bool
  | [] => needle.isEmpty
  | c :: rest => needle.isPrefixOf (c :: rest) || charsContains needle rest

/-- Python `needle in v` for a string literal needle: substring test on
strings, membership on lists, key test on dicts, `TypeError` otherwise. -/
def pyContains (needle : String) : Json → Except PyErr Bool
  | .str s => .ok (charsContains needle.data s.data)
  | .arr l => .ok (l.any (fun x => x.eqStr needle))
  | .obj fs => .ok ((Json.lookupField fs needle).isSome)
  | _ => .error (.typeError "argument is not iterable")

/-- Python iteration `for x in v`: lists yield elements, strings yield
one-character strings, dicts yield keys, anything else raises. -/
def Json.iter : Json → Except PyErr (List Json)
  | .arr l => .ok l
  | .str s => .ok (s.data.map (fun c => Json.str (String.mk [c])))
  | .obj fs => .ok (fs.map (fun p => Json.str p.1))
  | _ => .error (.typeError "object is not iterable")

/-- Python `s.isdigit()` (ASCII digits; the exercised payloads are ASCII). -/
def pyIsDigit (s : String) : Bool :=
  !s.data.isEmpty && s.data.all Char.isDigit

/-- Decimal value of a digit string. -/
def digitsToInt (l : List Char) : Int :=
  l.foldl (fun n c => 10 * n + ((c.toNat - 48 : Nat) : Int)) 0

/-- Python `int(s)` on a string: surrounding whitespace is stripped, an
optional sign is followed by at least one digit, anything else raises
`ValueError` (underscore separators are not modelled). -/
def pyIntOfString? (s : String) : Option Int :=
  let chars := ((s.data.dropWhile (fun c => c == ' ')).reverse.dropWhile
    (fun c => c == ' ')).reverse
  match chars with
  | [] => Option.none
  | '-' :: rest =>
    if !rest.isEmpty && rest.all Char.isDigit then some (-(digitsToInt rest)) else Option.none
  | '+' :: rest =>
    if !rest.isEmpty && rest.all Char.isDigit then some (digitsToInt rest) else Option.none
  | l =>
    if l.all Char.isDigit then some (digitsToInt l) else Option.none

/-- Rough model of Python `repr`/`str` on a JSON value; only its type
(String) matters to the claims (it feeds a never-exercised default arm). -/
def pyRepr (j : Json) : String := reprStr j

/-- Python `int(v)` on an arbitrary value: strings are parsed (ValueError on
failure), ints pass through, bools coerce, other types raise TypeError. -/
def pyIntOfJson : Json → Except PyErr Int
  | .str s =>
      match pyIntOfString? s with
      | some n => .ok n
      | Option.none => .error (.valueError "invalid literal for int() with base 10")
  | .num n => .ok n
  | .bool b => .ok (if b then 1 else 0)
  | _ => .error (.typeError "int() argument")

/-- Pydantic v2 lax validation of a `str` field: only `str` is accepted. -/
def asStr : Json → Except PyErr String
  | .str s => .ok s
  | _ => .error (.valueError "validation error: str expected")

/-- Pydantic v2 lax validation of an `int` field: ints and numeric strings
are accepted. -/
def asInt : Json → Except PyErr Int
  | .num n => .ok n
  | .str s =>
      match pyIntOfString? s with
      | some n => .ok n
      | Option.none => .error (.valueError "validation error: int expected")
  | _ => .error (.valueError "validation error: int expected")

/-- Pydantic v2 lax validation of a `bool` field. -/
def asBool : Json → Except PyErr Bool
  | .bool b => .ok b
  | .num 0 => .ok false
  | .num 1 => .ok true
  | .str s =>
      if s = "true" || s = "True" || s = "1" || s = "yes" || s = "on" then .ok true
      else if s = "false" || s = "False" || s = "0" || s = "no" || s = "off" then .ok false
      else .error (.valueError "validation error: bool expected")
  | _ => .error (.valueError "validation error: bool expected")

/-- Fueled worker for `str.replace`: replaces non-overlapping occurrences
left to right; the fuel (the haystack length) dominates the recursion. -/
def replaceFuel : Nat → List Char → List Char → List Char → List Char
  | 0, hay, _, _ => hay
  | _ + 1, [], _, _ => []
  | f + 1, c :: rest, pat, rep =>
    if pat.isPrefixOf (c :: rest) && !pat.isEmpty then
      rep ++ replaceFuel f (List.drop pat.length (c :: rest)) pat rep
    else c :: replaceFuel f rest pat rep

/-- Python `s.replace(a, b)` for a nonempty pattern `a` (the source only
replaces "Z" and "_normal"). -/
def pyStrReplace (s pat rep : String) : String :=
  String.mk (replaceFuel s.data.length s.data pat.data rep.data)

/-- Python `s.replace(a, b)` on a value expected to be a string
(`AttributeError` otherwise, as in CPython). -/
def pyReplace (j : Json) (a b : String) : Except PyErr String :=
  match j with
  | .str s => .ok (pyStrReplace s a b)
  | _ => .error (.attributeError "replace")

/-- External-library environment of the normalizer: `datetime.fromisoformat`
(returning an epoch value when the string parses) and `datetime.now()`. -/
structure PyEnv where
  fromIso : String → Option Int
  now : Int

/-! ## Domain models (`z2k2/models.py`)

Pydantic fields that `twitter_parser.py` never assigns and that therefore
always hold their declared default (`tombstone`, `location`, `retweet`,
`quote`, `card`, `poll`, `video`, `attribution`, `media_tags` on `Tweet`;
`url`, `views`, `available`, `reason`, `title`, `description`,
`playback_type` on `Video`) are omitted: they are constant on every value
the embedded code can produce.  `datetime` values are abstracted to the
epoch integers supplied by `PyEnv`. -/

/-- `VerifiedType` enum. -/
inductive VerifiedType where
  | none
  | blue
  | business
  | government
deriving DecidableEq, Repr

/-- `VideoType` enum. -/
inductive VideoType where
  | m3u8
  | mp4
  | vmap
deriving DecidableEq, Repr

/-- Pydantic coercion of a string value into the `VideoType` enum. -/
def asVideoType : Json → Except PyErr VideoType
  | .str "application/x-mpegURL" => .ok .m3u8
  | .str "video/mp4" => .ok .mp4
  | .str "video/vmap" => .ok .vmap
  | _ => .error (.valueError "validation error: VideoType expected")

/-- `User` model. -/
structure User where
  id : String
  username : String
  fullname : String
  location : String := ""
  website : String := ""
  bio : String := ""
  user_pic : String := ""
  banner : String := ""
  pinned_tweet : Int := 0
  following : Int := 0
  followers : Int := 0
  tweets : Int := 0
  likes : Int := 0
  media : Int := 0
  verified_type : VerifiedType := .none
  «protected» : Bool := false
  suspended : Bool := false
  join_date : Int
deriving DecidableEq, Repr

/-- `VideoVariant` model. -/
structure VideoVariant where
  content_type : VideoType
  url : String
  bitrate : Int := 0
  resolution : Int := 0
deriving DecidableEq, Repr

/-- `Video` model (fields the parser populates). -/
structure Video where
  duration_ms : Int := 0
  thumb : String := ""
  variants : List VideoVariant := []
deriving DecidableEq, Repr

/-- `Gif` model. -/
structure Gif where
  url : String
  thumb : String
deriving DecidableEq, Repr

/-- `TweetStats` model. -/
structure TweetStats where
  replies : Int := 0
  retweets : Int := 0
  likes : Int := 0
  quotes : Int := 0
deriving DecidableEq, Repr

/-- `Tweet` model (fields the parser populates). -/
structure Tweet where
  id : Int
  thread_id : Int := 0
  reply_id : Int := 0
  user : User
  text : String
  time : Int
  reply : List String := []
  pinned : Bool := false
  has_thread : Bool := false
  available : Bool := true
  source : String := ""
  stats : TweetStats
  gif : Option Gif := Option.none
  photos : List String := []
  videos : List Video := []
deriving DecidableEq, Repr

/-- `Timeline` model. -/
structure Timeline where
  content : List (List Tweet) := []
  top : String := ""
  bottom : String := ""
  beginning : Bool := false
deriving DecidableEq, Repr

/-- `Profile` model. -/
structure Profile where
  user : User
  pinned : Option Tweet := Option.none
  tweets : Timeline
deriving DecidableEq, Repr

/-! ## Response normalizer (`z2k2/twitter_parser.py`) -/

/-- `_parse_timestamp`: `datetime.fromisoformat(s.replace('Z', '+00:00'))`
under a bare `except:` that falls back to `datetime.now()`; a non-string
argument raises `AttributeError`, which the bare except also converts to
`now`. -/
def parse_timestamp (env : PyEnv) : Json → Int
  | .str s => (env.fromIso (pyStrReplace s "Z" "+00:00")).getD env.now
  | _ => env.now

/-- `_parse_verified_type`. -/
def parse_verified_type (user_data : Json) : Except PyErr VerifiedType := do
  let legacy ← user_data.getD "legacy" (Json.obj [])
  let verified ← legacy.getD "verified" (Json.bool false)
  if verified.truthy then
    let vt ← user_data.getD "verified_type" (Json.str "")
    if vt.eqStr "Business" then pure .business
    else if vt.eqStr "Government" then pure .government
    else pure .blue
  else pure .none

/-- `_parse_user`.  Pydantic validation of each constructor argument is
inlined at its binding site; this is observationally equivalent on success
and still fails whenever CPython would fail. -/
def parse_user (env : PyEnv) (user_data : Json) : Except PyErr User := do
  let legacy ← user_data.getD "legacy" (Json.obj [])
  let rest_id ← user_data.getD "rest_id" (Json.str "")
  let created_at ← legacy.getD "created_at" (Json.str "")
  let join_date := if created_at.truthy then parse_timestamp env created_at else env.now
  let id ← asStr rest_id
  let username ← asStr (← legacy.getD "screen_name" (Json.str ""))
  let fullname ← asStr (← legacy.getD "name" (Json.str ""))
  let location ← asStr (← legacy.getD "location" (Json.str ""))
  let website ← asStr (← legacy.getD "url" (Json.str ""))
  let bio ← asStr (← legacy.getD "description" (Json.str ""))
  let user_pic ← pyReplace (← legacy.getD "profile_image_url_https" (Json.str "")) "_normal" "_400x400"
  let banner ← asStr (← legacy.getD "profile_banner_url" (Json.str ""))
  let pinnedCond ← legacy.get? "pinned_tweet_ids_str"
  let pinned_tweet ←
    if (match pinnedCond with | some v => v.truthy | Option.none => false) then do
      let lst ← legacy.getD "pinned_tweet_ids_str" (Json.arr [Json.str "0"])
      pyIntOfJson (← lst.sub0)
    else pure 0
  let following ← asInt (← legacy.getD "friends_count" (Json.num 0))
  let followers ← asInt (← legacy.getD "followers_count" (Json.num 0))
  let tweets ← asInt (← legacy.getD "statuses_count" (Json.num 0))
  let likes ← asInt (← legacy.getD "favourites_count" (Json.num 0))
  let media ← asInt (← legacy.getD "media_count" (Json.num 0))
  let verified_type ← parse_verified_type user_data
  let protectedJ ← legacy.getD "protected" (Json.bool false)
  let prot ← asBool protectedJ
  let tn ← user_data.get? "__typename"
  let suspended := match tn with | some v => v.eqStr "UserUnavailable" | Option.none => false
  pure { id, username, fullname, location, website, bio, user_pic, banner,
         pinned_tweet, following, followers, tweets, likes, media,
         verified_type, «protected» := prot, suspended, join_date }

/-- `_parse_tweet_stats`. -/
def parse_tweet_stats (legacy : Json) : Except PyErr TweetStats := do
  let replies ← asInt (← legacy.getD "reply_count" (Json.num 0))
  let retweets ← asInt (← legacy.getD "retweet_count" (Json.num 0))
  let likes ← asInt (← legacy.getD "favorite_count" (Json.num 0))
  let quotes ← asInt (← legacy.getD "quote_count" (Json.num 0))
  pure { replies, retweets, likes, quotes }

/-- Media loop of `_parse_tweet`: walks `legacy.extended_entities.media` in
order, dispatching on the `type` tag into photos, videos and (last-wins)
animated gif; unknown tags are skipped. -/
def parseMediaLoop : List Json → List String → List Video → Option Gif →
    Except PyErr (List String × List Video × Option Gif)
  | [], photos, videos, gif => .ok (photos, videos, gif)
  | m :: rest, photos, videos, gif => do
    let mt ← m.getD "type" (Json.str "")
    if mt.eqStr "photo" then do
      let u ← asStr (← m.getD "media_url_https" (Json.str ""))
      parseMediaLoop rest (photos ++ [u]) videos gif
    else if mt.eqStr "video" then do
      let vi ← m.getD "video_info" (Json.obj [])
      let vlist ← (← vi.getD "variants" (Json.arr [])).iter
      let variants ← vlist.mapM (fun v => do
        let ct ← asVideoType (← v.getD "content_type" (Json.str "video/mp4"))
        let url ← asStr (← v.getD "url" (Json.str ""))
        let br ← asInt (← v.getD "bitrate" (Json.num 0))
        pure { content_type := ct, url := url, bitrate := br : VideoVariant })
      let dm ← asInt (← vi.getD "duration_millis" (Json.num 0))
      let th ← asStr (← m.getD "media_url_https" (Json.str ""))
      parseMediaLoop rest photos (videos ++ [{ duration_ms := dm, thumb := th, variants }]) gif
    else if mt.eqStr "animated_gif" then do
      let vi ← m.getD "video_info" (Json.obj [])
      let variants ← vi.getD "variants" (Json.arr [])
      if variants.truthy then do
        let v0 ← variants.sub0
        let url ← asStr (← v0.getD "url" (Json.str ""))
        let th ← asStr (← m.getD "media_url_https" (Json.str ""))
        parseMediaLoop rest photos videos (some { url := url, thumb := th })
      else parseMediaLoop rest photos videos gif
    else parseMediaLoop rest photos videos gif

/-- `_parse_tweet`: returns `none` (Python `None`) for unavailable items,
a `Tweet` otherwise; any Python exception surfaces as `Except.error`. -/
def parse_tweet (env : PyEnv) (tweet_data0 : Json) : Except PyErr (Option Tweet) := do
  let hasTweetKey ← pyContains "tweet" tweet_data0
  let tweet_data ← if hasTweetKey then tweet_data0.subKey "tweet" else pure tweet_data0
  if !tweet_data.truthy then return Option.none
  let tn ← tweet_data.get? "__typename"
  if (match tn with | some v => v.eqStr "TweetUnavailable" | Option.none => false) then
    return Option.none
  let legacy ← tweet_data.getD "legacy" (Json.obj [])
  let rest_id ← tweet_data.getD "rest_id" (Json.str "0")
  let core ← tweet_data.getD "core" (Json.obj [])
  let user_data1 ← (← core.getD "user_result" (Json.obj [])).getD "result" (Json.obj [])
  let user_data ←
    if !user_data1.truthy then do
      (← core.getD "user_results" (Json.obj [])).getD "result" (Json.obj [])
    else pure user_data1
  let user ←
    if user_data.truthy then parse_user env user_data
    else pure { id := "0", username := "unknown", fullname := "Unknown", join_date := env.now }
  let created_at ← legacy.getD "created_at" (Json.str "")
  let tweet_time := if created_at.truthy then parse_timestamp env created_at else env.now
  let mediaList ← (← (← legacy.getD "extended_entities" (Json.obj [])).getD "media" (Json.arr [])).iter
  let (photos, videos, gif) ← parseMediaLoop mediaList [] [] Option.none
  let textJ ← legacy.getD "full_text" (Json.str "")
  let textJ ← if !textJ.truthy then legacy.getD "text" (Json.str "") else pure textJ
  let id ← (match rest_id with
    | Json.str s => pure (if pyIsDigit s then (pyIntOfString? s).getD 0 else 0)
    | _ => Except.error (PyErr.attributeError "isdigit"))
  let conv ← legacy.getD "conversation_id_str" (Json.str "0")
  let thread_id ← (match conv with
    | Json.str s => pure (if pyIsDigit s then (pyIntOfString? s).getD 0 else 0)
    | _ => Except.error (PyErr.attributeError "isdigit"))
  let replyCond ← legacy.get? "in_reply_to_status_id_str"
  let reply_id ← (match replyCond with
    | some v => if v.truthy then pyIntOfJson v else pure 0
    | Option.none => pure 0)
  let text ← asStr textJ
  let rsCond ← legacy.get? "in_reply_to_screen_name"
  let reply ← (match rsCond with
    | some v => if v.truthy then do pure [← asStr v] else pure []
    | Option.none => pure ([] : List String))
  let st ← legacy.getD "self_thread" (Json.obj [])
  let idStr ← st.get? "id_str"
  let has_thread := idStr.isSome
  let source ← asStr (← legacy.getD "source" (Json.str ""))
  let stats ← parse_tweet_stats legacy
  pure (some { id, thread_id, reply_id, user, text, time := tweet_time, reply,
               pinned := false, has_thread, available := true, source, stats,
               gif, photos, videos })

/-! ## Timeline parsing (`_parse_timeline_tweets` and friends) -/

/-- Inner item loop of the `TimelineTimelineModule` branch. -/
def tlItemsLoop (env : PyEnv) : List Json → List Tweet → Except PyErr (List Tweet)
  | [], tweets => .ok tweets
  | item :: rest, tweets => do
    let item_content ← (← item.getD "item" (Json.obj [])).getD "itemContent" (Json.obj [])
    let itn ← item_content.get? "__typename"
    if (match itn with | some v => v.eqStr "TimelineTweet" | Option.none => false) then do
      let result ← (← item_content.getD "tweetResult" (Json.obj [])).getD "result" (Json.obj [])
      match ← parse_tweet env result with
      | some t => tlItemsLoop env rest (tweets ++ [t])
      | Option.none => tlItemsLoop env rest tweets
    else tlItemsLoop env rest tweets

/-- Entry loop of the `TimelineAddEntries` branch: single items yield one
tweet, modules yield their inner items, cursor and unknown entries are
skipped. -/
def tlEntriesLoop (env : PyEnv) : List Json → List Tweet → Except PyErr (List Tweet)
  | [], tweets => .ok tweets
  | entry :: rest, tweets => do
    let content ← entry.getD "content" (Json.obj [])
    let ct ← content.getD "__typename" (Json.str "")
    if ct.eqStr "TimelineTimelineItem" then do
      let result ← (← (← content.getD "content" (Json.obj [])).getD "tweetResult"
        (Json.obj [])).getD "result" (Json.obj [])
      match ← parse_tweet env result with
      | some t => tlEntriesLoop env rest (tweets ++ [t])
      | Option.none => tlEntriesLoop env rest tweets
    else if ct.eqStr "TimelineTimelineModule" then do
      let items ← (← content.getD "items" (Json.arr [])).iter
      let tweets2 ← tlItemsLoop env items tweets
      tlEntriesLoop env rest tweets2
    else tlEntriesLoop env rest tweets

/-- Instruction loop of `_parse_timeline_tweets`: a `TimelinePinEntry` is
unwrapped three levels, parsed, flagged `pinned := true` and appended to the
tweet list; `TimelineAddEntries` is walked entry by entry; unknown
instructions are skipped. -/
def tlInstructionsLoop (env : PyEnv) : List Json → List Tweet → Except PyErr (List Tweet)
  | [], tweets => .ok tweets
  | instruction :: rest, tweets => do
    let tn ← instruction.getD "__typename" (Json.str "")
    if tn.eqStr "TimelinePinEntry" then do
      let result ← (← (← (← (← instruction.getD "entry" (Json.obj [])).getD "content"
        (Json.obj [])).getD "content" (Json.obj [])).getD "tweetResult"
        (Json.obj [])).getD "result" (Json.obj [])
      match ← parse_tweet env result with
      | some t => tlInstructionsLoop env rest (tweets ++ [{ t with pinned := true }])
      | Option.none => tlInstructionsLoop env rest tweets
    else if tn.eqStr "TimelineAddEntries" then do
      let entries ← (← instruction.getD "entries" (Json.arr [])).iter
      let tweets2 ← tlEntriesLoop env entries tweets
      tlInstructionsLoop env rest tweets2
    else tlInstructionsLoop env rest tweets

/-- `_parse_timeline_tweets`: navigates
`data.user_result.result.timeline_response.timeline.instructions` and runs
the instruction loop. -/
def parse_timeline_tweets (env : PyEnv) (timeline_data : Json) : Except PyErr (List Tweet) := do
  let data ← timeline_data.getD "data" (Json.obj [])
  let ur ← data.getD "user_result" (Json.obj [])
  let user_result ← ur.getD "result" (Json.obj [])
  let tr ← user_result.getD "timeline_response" (Json.obj [])
  let timeline ← tr.getD "timeline" (Json.obj [])
  let instructions ← (← timeline.getD "instructions" (Json.arr [])).iter
  tlInstructionsLoop env instructions []

/-- Cursor scan over one `TimelineAddEntries` entry list: an entry whose
`entryId` contains `cursor-top` overwrites the top cursor, `cursor-bottom`
the bottom cursor. -/
def tlCursorEntriesLoop : List Json → Json → Json → Except PyErr (Json × Json)
  | [], top, bottom => .ok (top, bottom)
  | entry :: rest, top, bottom => do
    let entry_id ← entry.getD "entryId" (Json.str "")
    if ← pyContains "cursor-top" entry_id then do
      let v ← (← entry.getD "content" (Json.obj [])).getD "value" (Json.str "")
      tlCursorEntriesLoop rest v bottom
    else if ← pyContains "cursor-bottom" entry_id then do
      let v ← (← entry.getD "content" (Json.obj [])).getD "value" (Json.str "")
      tlCursorEntriesLoop rest top v
    else tlCursorEntriesLoop rest top bottom

/-- Cursor scan over the instruction list (second pass of
`_parse_timeline_from_graphql`). -/
def tlCursorLoop : List Json → Json → Json → Except PyErr (Json × Json)
  | [], top, bottom => .ok (top, bottom)
  | instruction :: rest, top, bottom => do
    let tn ← instruction.get? "__typename"
    if (match tn with | some v => v.eqStr "TimelineAddEntries" | Option.none => false) then do
      let entries ← (← instruction.getD "entries" (Json.arr [])).iter
      let (top2, bottom2) ← tlCursorEntriesLoop entries top bottom
      tlCursorLoop rest top2 bottom2
    else tlCursorLoop rest top bottom

/-- Navigation plus cursor scan of `_parse_timeline_from_graphql`. -/
def timelineCursorScan (resp : Json) : Except PyErr (Json × Json) := do
  let data ← resp.getD "data" (Json.obj [])
  let ur ← data.getD "user_result" (Json.obj [])
  let user_result ← ur.getD "result" (Json.obj [])
  let tr ← user_result.getD "timeline_response" (Json.obj [])
  let timeline ← tr.getD "timeline" (Json.obj [])
  let instructions ← (← timeline.getD "instructions" (Json.arr [])).iter
  tlCursorLoop instructions (Json.str "") (Json.str "")

/-- `_parse_timeline_from_graphql`: each parsed tweet becomes its own
single-element content group, cursors come from the second scan, and
`beginning` is `len(tweets) == 0`. -/
def parse_timeline_from_graphql (env : PyEnv) (resp : Json) : Except PyErr Timeline :=
  match parse_timeline_tweets env resp with
  | .error e => .error e
  | .ok tweets =>
    match timelineCursorScan resp with
    | .error e => .error e
    | .ok (topJ, bottomJ) =>
      match asStr topJ with
      | .error e => .error e
      | .ok top =>
        match asStr bottomJ with
        | .error e => .error e
        | .ok bottom =>
          .ok { content := tweets.map (fun t => [t]), top, bottom,
                beginning := tweets.length == 0 }

/-- The `data.user_result.result` navigation shared (textually repeated in
the source) by `parse_user_from_graphql` and `parse_profile_from_graphql`. -/
def userResultNav (resp : Json) : Except PyErr Json := do
  let d ← resp.getD "data" (Json.obj [])
  let ur ← d.getD "user_result" (Json.obj [])
  ur.getD "result" (Json.obj [])

/-- `parse_user_from_graphql`: resolves `data.user_result.result`; a falsy
result node means "no user" (`None`), not an error. -/
def parse_user_from_graphql (env : PyEnv) (resp : Json) : Except PyErr (Option User) :=
  match userResultNav resp with
  | .error e => .error e
  | .ok user_data =>
    if !user_data.truthy then .ok Option.none
    else
      match parse_user env user_data with
      | .error e => .error e
      | .ok u => .ok (some u)

/-- Inner loop of the pinned-tweet scan in `parse_profile_from_graphql`:
first pinned tweet of one group (Python `break` on first hit). -/
def findPinnedInGroup : List Tweet → Option Tweet
  | [] => Option.none
  | t :: ts => if t.pinned then some t else findPinnedInGroup ts

/-- Outer loop of the pinned-tweet scan: first group that contains a pinned
tweet wins (Python breaks out of both loops once `pinned` is set). -/
def findPinned : List (List Tweet) → Option Tweet
  | [] => Option.none
  | g :: gs =>
    match findPinnedInGroup g with
    | some t => some t
    | Option.none => findPinned gs

/-- `parse_profile_from_graphql`: user from the top-level result node (or a
placeholder), timeline via `_parse_timeline_from_graphql`, pinned tweet by
scanning the produced timeline content. -/
def parse_profile_from_graphql (env : PyEnv) (resp : Json) : Except PyErr Profile :=
  match userResultNav resp with
  | .error e => .error e
  | .ok user_result =>
    match (if user_result.truthy then
             match parse_user env user_result with
             | .error e => .error e
             | .ok u => .ok (some u)
           else .ok Option.none : Except PyErr (Option User)) with
    | .error e => .error e
    | .ok user? =>
      match parse_timeline_from_graphql env resp with
      | .error e => .error e
      | .ok timeline =>
        let pinned := findPinned timeline.content
        let user := match user? with
          | some u => u
          | Option.none =>
              { id := "0", username := "unknown", fullname := "Unknown", join_date := env.now }
        .ok { user, pinned, tweets := timeline }

/-! ## Upstream client (`z2k2/twitter_client.py`) -/

/-- Outcome of the `httpx` GET as seen by `_fetch`: status code, `.text`
and the `.json()` payload. -/
structure HttpResponse where
  status_code : Nat
  text : String
  body : Json
deriving Repr

/-- The client's exception classes.  `RateLimitError` is a subclass of
`TwitterAPIError` in the source; the `except RateLimitError` clause in
`app.py` precedes the `except TwitterAPIError` clause, so modelling them as
separate constructors preserves the handler selection.  `py` carries any
other Python exception escaping `_fetch` or the parsers. -/
inductive ClientError where
  | rateLimitError (msg : String) (status_code : Option Nat)
  | twitterApiError (msg : String) (status_code : Option Nat)
  | py (e : PyErr)
deriving DecidableEq, Repr

/-- List comprehension `[e.get("message", str(e)) for e in data["errors"]]`
feeding `", ".join(...)`: non-string items make `join` raise `TypeError`. -/
def joinErrMsgsLoop : List Json → List String → Except PyErr (List String)
  | [], acc => .ok acc
  | e :: rest, acc => do
    let m ← e.getD "message" (Json.str (pyRepr e))
    match m with
    | Json.str s => joinErrMsgsLoop rest (acc ++ [s])
    | _ => Except.error (PyErr.typeError "sequence item: expected str instance")

/-- `TwitterClient._fetch`, classified over the outcome of the HTTP GET
(`Except.error` on the left models `httpx.RequestError`): 429 raises
`RateLimitError`, 503 raises `TwitterAPIError("Service unavailable")`,
other 4xx/5xx go through `raise_for_status` into
`TwitterAPIError(f"{status}: {text}")`, and a body whose `errors` key is
present raises `TwitterAPIError` with the joined messages. -/
def TwitterClient.fetch (resp : Except String HttpResponse) : Except ClientError Json :=
  match resp with
  | .error emsg => .error (.twitterApiError ("Request error: " ++ emsg) Option.none)
  | .ok r =>
    if r.status_code = 429 then .error (.rateLimitError "Rate limit exceeded" (some 429))
    else if r.status_code = 503 then .error (.twitterApiError "Service unavailable" Option.none)
    else if 400 ≤ r.status_code then
      .error (.twitterApiError
        (toString r.status_code ++ ": " ++ (if r.text ≠ "" then r.text else "HTTP error"))
        (some r.status_code))
    else
      match pyContains "errors" r.body with
      | .error e => .error (.py e)
      | .ok true =>
        match (do
          let errs ← (← r.body.subKey "errors").iter
          joinErrMsgsLoop errs [] : Except PyErr (List String)) with
        | .error e => .error (.py e)
        | .ok msgs =>
          .error (.twitterApiError ("Twitter API error: " ++ String.intercalate ", " msgs)
            Option.none)
      | .ok false => .ok r.body

/-! ## Jittered-TTL caches (`z2k2/sqlite_cache.py`, `z2k2/postgres_cache.py`)

The persistent table is a key-indexed map to (serialized value, integer
write timestamp).  `random.uniform(-jitter, +jitter)` is modelled by a
rational draw `r` with `-jitter ≤ r ≤ jitter`, and Python's `int(...)` on
the jittered sum by truncation toward zero.  The standard-library `json`
module is a `JsonLib` parameter. -/

/-- One cache table: key to (serialized value, write timestamp). -/
abbrev CacheDb := String → Option (String × Int)

/-- Constructor arguments `ttl` and `ttl_jitter` (seconds). -/
structure CacheCfg where
  ttl : Int
  ttl_jitter : Int

/-- Python `int(x)` on a real number: truncation toward zero. -/
def pyIntTrunc (q : ℚ) : Int := if 0 ≤ q then ⌊q⌋ else ⌈q⌉

/-- `_get_effective_ttl` (identical in both cache backends): the base TTL
when jitter is zero, otherwise `int(ttl + uniform(-jitter, jitter))` with
the draw `r`. -/
def get_effective_ttl (c : CacheCfg) (r : ℚ) : Int :=
  if c.ttl_jitter = 0 then c.ttl else pyIntTrunc ((c.ttl : ℚ) + r)

/-- The standard-library `json` boundary: `json.dumps` / `json.loads`. -/
structure JsonLib where
  dumps : Json → String
  loads : String → Option Json

/-- `SqliteCache.get`: row lookup, per-read effective TTL, eager delete of
an expired row; returns the deserialized value and the table afterwards. -/
def SqliteCache.get (lib : JsonLib) (c : CacheCfg) (db : CacheDb) (key : String)
    (now : Int) (r : ℚ) : Option Json × CacheDb :=
  match db key with
  | Option.none => (Option.none, db)
  | some (value, timestamp) =>
    let effective_ttl := get_effective_ttl c r
    if now - timestamp > effective_ttl then
      (Option.none, fun k => if k = key then Option.none else db k)
    else
      (lib.loads value, db)

/-- `SqliteCache.set`: upsert of (serialized value, current timestamp). -/
def SqliteCache.set (lib : JsonLib) (db : CacheDb) (key : String) (value : Json)
    (now : Int) : CacheDb :=
  fun k => if k = key then some (lib.dumps value, now) else db k

/-- `SqliteCache.clear_expired`: `DELETE FROM cache WHERE now - timestamp >
ttl + ttl_jitter`. -/
def SqliteCache.clear_expired (c : CacheCfg) (db : CacheDb) (now : Int) : CacheDb :=
  fun k =>
    match db k with
    | Option.none => Option.none
    | some (v, ts) => if now - ts > c.ttl + c.ttl_jitter then Option.none else some (v, ts)

/-- `PostgresCache.get` (same row logic as the SQLite backend). -/
def PostgresCache.get (lib : JsonLib) (c : CacheCfg) (db : CacheDb) (key : String)
    (now : Int) (r : ℚ) : Option Json × CacheDb :=
  match db key with
  | Option.none => (Option.none, db)
  | some (value, timestamp) =>
    let effective_ttl := get_effective_ttl c r
    if now - timestamp > effective_ttl then
      (Option.none, fun k => if k = key then Option.none else db k)
    else
      (lib.loads value, db)

/-- `PostgresCache.set`: update-or-insert of (serialized value, timestamp). -/
def PostgresCache.set (lib : JsonLib) (db : CacheDb) (key : String) (value : Json)
    (now : Int) : CacheDb :=
  fun k => if k = key then some (lib.dumps value, now) else db k

/-- `PostgresCache.clear_expired`: delete rows with
`timestamp < now - (ttl + ttl_jitter)`. -/
def PostgresCache.clear_expired (c : CacheCfg) (db : CacheDb) (now : Int) : CacheDb :=
  fun k =>
    match db k with
    | Option.none => Option.none
    | some (v, ts) => if ts < now - (c.ttl + c.ttl_jitter) then Option.none else some (v, ts)

/-! ## Credential pool (`z2k2/session_manager.py`) -/

/-- `_TwitterSession` credentials. -/
structure TwitterSession where
  oauth_token : String
  oauth_token_secret : String
deriving DecidableEq, Repr

/-- `SessionManager` state: the loaded session list and the rotation index.
`__init__` sets `_current_index = 0` before loading, and `_load_sessions`
only appends, so a successfully constructed manager starts at index 0. -/
structure SessionManager where
  sessions : List TwitterSession
  current_index : Nat
deriving DecidableEq, Repr

/-- `SessionManager.get_session`: return the session at the rotation index
and advance the index modulo the pool size. -/
def SessionManager.get_session (m : SessionManager) :
    Except PyErr (TwitterSession × SessionManager) :=
  if m.sessions.isEmpty then .error (.runtimeError "No sessions available")
  else
    match m.sessions[m.current_index]? with
    | some s => .ok (s, { m with current_index := (m.current_index + 1) % m.sessions.length })
    | Option.none => .error (.indexError "list index out of range")

/-- `n` consecutive `get_session()` calls, collecting the returned sessions
in call order together with the final manager state. -/
def getSessions : Nat → SessionManager → Except PyErr (List TwitterSession × SessionManager)
  | 0, m => .ok ([], m)
  | n + 1, m =>
    match m.get_session with
    | .error e => .error e
    | .ok (s, m2) =>
      match getSessions n m2 with
      | .error e => .error e
      | .ok (rest, m3) => .ok (s :: rest, m3)

/-! ## Request handlers (`app.py`)

The `lifespan` hook creates a `PostgresCache` and assigns it to the module
attribute `twitter_client._cache`; that cache instance is part of the
process state and is carried in `AppState.cache`.  Handlers are modelled
over the upstream network outcomes (`Upstream`), returning the response,
the updated process state, and the list of outbound upstream calls
performed. -/

/-- Raw network outcomes for the two upstream operations, at the
granularity consumed by `TwitterClient._fetch`. -/
structure Upstream where
  userResp : String → Except String HttpResponse
  tweetsResp : String → Option String → Except String HttpResponse

/-- One outbound upstream call, tagged with the signing credential. -/
inductive UpstreamCall where
  | userByScreenName (oauth_token : String) (username : String)
  | userTweets (oauth_token : String) (user_id : String) (cursor : Option String)
deriving DecidableEq, Repr

/-- Process state at request time: the module-level `session_manager` and
the `PostgresCache` assigned to `twitter_client._cache` during `lifespan`. -/
structure AppState where
  session_manager : SessionManager
  cache : CacheDb

/-- `fastapi.HTTPException`. -/
structure HTTPException where
  status_code : Nat
  detail : String
deriving DecidableEq, Repr

/-- The message text of a Python exception (`str(e)`). -/
def PyErr.msg : PyErr → String
  | .attributeError m => m
  | .valueError m => m
  | .typeError m => m
  | .keyError m => m
  | .indexError m => m
  | .runtimeError m => m

/-- The `except` clauses of `get_profile_timeline`: `RateLimitError` maps
to 429, other `TwitterAPIError`s to 502, and any other exception to 500. -/
def mapClientError : ClientError → HTTPException
  | .rateLimitError _ _ =>
      { status_code := 429, detail := "Rate limit exceeded. Please try again later." }
  | .twitterApiError msg _ => { status_code := 502, detail := "Twitter API error: " ++ msg }
  | .py e => { status_code := 500, detail := "Internal server error: " ++ e.msg }

/-- `get_user_data`: rotate a session, call
`client.get_user_by_screen_name`, normalize with
`parse_user_from_graphql`.  No cache access occurs on this path. -/
def get_user_data (env : PyEnv) (up : Upstream) (sm : SessionManager) (username : String) :
    Except ClientError (Option User) × SessionManager × List UpstreamCall :=
  match sm.get_session with
  | .error e => (.error (.py e), sm, [])
  | .ok (session, sm2) =>
    let call := UpstreamCall.userByScreenName session.oauth_token username
    match TwitterClient.fetch (up.userResp username) with
    | .error e => (.error e, sm2, [call])
    | .ok data =>
      match parse_user_from_graphql env data with
      | .error e => (.error (.py e), sm2, [call])
      | .ok u => (.ok u, sm2, [call])

/-- `get_user_tweets_data`: rotate a session and call
`client.get_user_tweets`; the raw response is returned unparsed.  No cache
access occurs on this path. -/
def get_user_tweets_data (up : Upstream) (sm : SessionManager) (user_id : String)
    (cursor : Option String) :
    Except ClientError Json × SessionManager × List UpstreamCall :=
  match sm.get_session with
  | .error e => (.error (.py e), sm, [])
  | .ok (session, sm2) =>
    let call := UpstreamCall.userTweets session.oauth_token user_id cursor
    match TwitterClient.fetch (up.tweetsResp user_id cursor) with
    | .error e => (.error e, sm2, [call])
    | .ok data => (.ok data, sm2, [call])

/-- Route `GET /twitter/profile/{username}` (`get_profile_timeline`):
resolve the user (404 when absent), fetch the timeline, parse the profile,
overlay the authoritative user.  There is no suspended check and no cache
access on this path. -/
def get_profile_timeline (env : PyEnv) (up : Upstream) (st : AppState)
    (username : String) (cursor : Option String) :
    Except HTTPException Profile × AppState × List UpstreamCall :=
  match get_user_data env up st.session_manager username with
  | (.error e, sm2, calls) =>
      (.error (mapClientError e), { st with session_manager := sm2 }, calls)
  | (.ok Option.none, sm2, calls) =>
      (.error { status_code := 404, detail := "User @" ++ username ++ " is absent" },
       { st with session_manager := sm2 }, calls)
  | (.ok (some user), sm2, calls) =>
    match get_user_tweets_data up sm2 user.id cursor with
    | (.error e, sm3, calls2) =>
        (.error (mapClientError e), { st with session_manager := sm3 }, calls ++ calls2)
    | (.ok tweets_response, sm3, calls2) =>
      match parse_profile_from_graphql env tweets_response with
      | .error e =>
          (.error (mapClientError (.py e)), { st with session_manager := sm3 }, calls ++ calls2)
      | .ok profile =>
          (.ok { profile with user := user }, { st with session_manager := sm3 },
           calls ++ calls2)

/-- Response of `GET /twitter/profile/{handle}/_status`. -/
inductive StatusResult where
  | absent
  | status («protected» : Bool) (suspended : Bool)
deriving DecidableEq, Repr

/-- Route `get_user_status`: resolve the user; `{absent: true}` when
missing, otherwise the protected/suspended flags.  Exceptions propagate
(no try block); no cache access occurs on this path either. -/
def get_user_status (env : PyEnv) (up : Upstream) (st : AppState) (handle : String) :
    Except ClientError StatusResult × AppState × List UpstreamCall :=
  match get_user_data env up st.session_manager handle with
  | (.error e, sm2, calls) => (.error e, { st with session_manager := sm2 }, calls)
  | (.ok Option.none, sm2, calls) => (.ok .absent, { st with session_manager := sm2 }, calls)
  | (.ok (some u), sm2, calls) =>
      (.ok (.status u.«protected» u.suspended), { st with session_manager := sm2 }, calls)

/-! ## Round-robin rotation -/

theorem get_session_eq (l : List TwitterSession) (i : Nat) (h : i < l.length) :
    SessionManager.get_session ⟨l, i⟩ =
      .ok (l.get ⟨i, h⟩, ⟨l, (i + 1) % l.length⟩) := by
  unfold SessionManager.get_session
  have hne : l.isEmpty = false := by
    cases l with
    | nil => simp at h
    | cons a as => rfl
  rw [hne]
  simp [List.getElem?_eq_getElem h]

theorem getSessions_spec (k : Nat) (l : List TwitterSession) (i : Nat)
    (hi : i < l.length) (hk : i + k ≤ l.length) :
    getSessions k ⟨l, i⟩ = .ok ((l.drop i).take k, ⟨l, (i + k) % l.length⟩) := by
  induction k generalizing i with
  | zero =>
    simp [getSessions, Nat.mod_eq_of_lt hi]
  | succ k ih =>
    rw [getSessions, get_session_eq l i hi]
    dsimp only
    have hdrop : l.drop i = l.get ⟨i, hi⟩ :: l.drop (i + 1) :=
      List.drop_eq_getElem_cons hi
    rcases Nat.lt_or_ge (i + 1) l.length with hlt | hge
    · rw [Nat.mod_eq_of_lt hlt, ih (i + 1) hlt (by omega)]
      dsimp only
      rw [hdrop]
      simp only [List.take_succ_cons]
      have harith : i + 1 + k = i + (k + 1) := by omega
      rw [harith]
    · have hlen : i + 1 = l.length := by omega
      have hk0 : k = 0 := by omega
      subst hk0
      have hidx : (i + 1) % l.length = 0 := by rw [hlen, Nat.mod_self]
      have hnil : l.drop (i + 1) = [] := List.drop_eq_nil_of_le (by omega)
      rw [hidx]
      simp [getSessions, hdrop, hnil]

theorem getSessions_succ_right (n : Nat) (m : SessionManager) :
    getSessions (n + 1) m =
      match getSessions n m with
      | .error e => .error e
      | .ok (xs, m2) =>
        match m2.get_session with
        | .error e => .error e
        | .ok (s, m3) => .ok (xs ++ [s], m3) := by
  induction n generalizing m with
  | zero =>
    simp only [getSessions]
    cases m.get_session with
    | error e => rfl
    | ok p => rfl
  | succ n ih =>
    rw [getSessions]
    cases hm : m.get_session with
    | error e =>
      rw [getSessions, hm]
    | ok p =>
      obtain ⟨s, m2⟩ := p
      dsimp only
      rw [ih m2]
      conv_rhs => rw [getSessions, hm]
      dsimp only
      cases h2 : getSessions n m2 with
      | error e => rfl
      | ok q =>
        obtain ⟨xs, m3⟩ := q
        dsimp only
        cases m3.get_session with
        | error e => rfl
        | ok p2 => rfl

/-- C8: for every loaded credential set of size N ≥ 1 (a constructed
`SessionManager` starts at rotation index 0), N consecutive `get_session()`
calls return exactly the loaded sessions in loaded order (each exactly
once) and return the manager to its initial state, and the (N+1)th call
returns the same credential as the first. -/
theorem session_round_robin (l : List TwitterSession) (h : l ≠ []) :
    getSessions l.length ⟨l, 0⟩ = .ok (l, ⟨l, 0⟩) ∧
    getSessions (l.length + 1) ⟨l, 0⟩ =
      .ok (l ++ [l.head h], ⟨l, 1 % l.length⟩) := by
  have hlen : 0 < l.length := List.length_pos.mpr h
  have h1 : getSessions l.length ⟨l, 0⟩ = .ok (l, ⟨l, 0⟩) := by
    have hs := getSessions_spec l.length l 0 hlen (by omega)
    simpa [Nat.mod_self] using hs
  refine ⟨h1, ?_⟩
  rw [getSessions_succ_right, h1]
  dsimp only
  rw [get_session_eq l 0 hlen]
  have hhead : l.get ⟨0, hlen⟩ = l.head h := by
    cases l with
    | nil => exact absurd rfl h
    | cons a as => rfl
  rw [hhead]

theorem session_round_robin_witness :
    getSessions 2 ⟨[⟨"tokA", "secA"⟩, ⟨"tokB", "secB"⟩], 0⟩ =
      .ok ([⟨"tokA", "secA"⟩, ⟨"tokB", "secB"⟩],
           ⟨[⟨"tokA", "secA"⟩, ⟨"tokB", "secB"⟩], 0⟩) ∧
    getSessions 3 ⟨[⟨"tokA", "secA"⟩, ⟨"tokB", "secB"⟩], 0⟩ =
      .ok ([⟨"tokA", "secA"⟩, ⟨"tokB", "secB"⟩, ⟨"tokA", "secA"⟩],
           ⟨[⟨"tokA", "secA"⟩, ⟨"tokB", "secB"⟩], 1⟩) := by
  have hr := session_round_robin [⟨"tokA", "secA"⟩, ⟨"tokB", "secB"⟩] (by decide)
  exact ⟨hr.1, hr.2⟩

/-! ## Jittered-TTL expiry bounds -/

theorem le_effective_ttl_of_fresh (c : CacheCfg) (r : ℚ) (t : Int)
    (ht : 0 < t) (hle : t ≤ c.ttl - c.ttl_jitter) (hr1 : -(c.ttl_jitter : ℚ) ≤ r) :
    t ≤ get_effective_ttl c r := by
  unfold get_effective_ttl
  split
  · omega
  · have htq : (0 : ℚ) < (t : ℚ) := by exact_mod_cast ht
    have hleq : (t : ℚ) ≤ (c.ttl : ℚ) - (c.ttl_jitter : ℚ) := by
      exact_mod_cast hle
    have hq : (0 : ℚ) ≤ (c.ttl : ℚ) + r := by linarith
    unfold pyIntTrunc
    rw [if_pos hq, Int.le_floor]
    linarith

theorem effective_ttl_lt_of_stale (c : CacheCfg) (r : ℚ) (t : Int)
    (ht : 0 < t) (hgt : c.ttl + c.ttl_jitter < t) (hr2 : r ≤ (c.ttl_jitter : ℚ)) :
    get_effective_ttl c r < t := by
  unfold get_effective_ttl
  split
  · omega
  · unfold pyIntTrunc
    split
    · rw [Int.floor_lt]
      have hgq : (c.ttl : ℚ) + (c.ttl_jitter : ℚ) < (t : ℚ) := by
        exact_mod_cast hgt
      linarith
    · have hneg : (c.ttl : ℚ) + r ≤ 0 := le_of_lt (lt_of_not_ge (by assumption))
      have hceil : ⌈(c.ttl : ℚ) + r⌉ ≤ (0 : Int) := Int.ceil_le.mpr (by exact_mod_cast hneg)
      omega

/-- C6: after `set(k, v)` at time `t0`, a `get(k)` at time `t0 + t` (with
`0 < t`) returns `v` for every jitter draw when `t ≤ ttl − jitter`, and
returns absent — deleting the entry — for every jitter draw when
`t > ttl + jitter`; this holds for both cache backends.  The hypotheses
state that the draw lies in `[-jitter, jitter]`, that the jitter magnitude
is nonnegative, and that the `json` library round-trips the stored value. -/
theorem cache_get_after_set_fresh_and_expired
    (lib : JsonLib) (c : CacheCfg) (db : CacheDb) (k : String) (v : Json)
    (t0 t : Int) (r : ℚ)
    (ht : 0 < t)
    (hr1 : -(c.ttl_jitter : ℚ) ≤ r) (hr2 : r ≤ (c.ttl_jitter : ℚ))
    (hrt : lib.loads (lib.dumps v) = some v) :
    (t ≤ c.ttl - c.ttl_jitter →
      SqliteCache.get lib c (SqliteCache.set lib db k v t0) k (t0 + t) r
        = (some v, SqliteCache.set lib db k v t0) ∧
      PostgresCache.get lib c (PostgresCache.set lib db k v t0) k (t0 + t) r
        = (some v, PostgresCache.set lib db k v t0)) ∧
    (c.ttl + c.ttl_jitter < t →
      SqliteCache.get lib c (SqliteCache.set lib db k v t0) k (t0 + t) r
        = (Option.none,
           fun k2 => if k2 = k then Option.none else SqliteCache.set lib db k v t0 k2) ∧
      PostgresCache.get lib c (PostgresCache.set lib db k v t0) k (t0 + t) r
        = (Option.none,
           fun k2 => if k2 = k then Option.none else PostgresCache.set lib db k v t0 k2)) := by
  have hlookup : SqliteCache.set lib db k v t0 k = some (lib.dumps v, t0) := by
    unfold SqliteCache.set
    rw [if_pos rfl]
  have hlookupP : PostgresCache.set lib db k v t0 k = some (lib.dumps v, t0) := by
    unfold PostgresCache.set
    rw [if_pos rfl]
  have hage : t0 + t - t0 = t := by omega
  constructor
  · intro hfresh
    have heff : ¬ (t0 + t - t0 > get_effective_ttl c r) := by
      rw [hage]
      exact not_lt.mpr (le_effective_ttl_of_fresh c r t ht hfresh hr1)
    constructor
    · unfold SqliteCache.get
      rw [hlookup]
      dsimp only
      rw [if_neg heff, hrt]
    · unfold PostgresCache.get
      rw [hlookupP]
      dsimp only
      rw [if_neg heff, hrt]
  · intro hstale
    have heff : t0 + t - t0 > get_effective_ttl c r := by
      rw [hage]
      exact effective_ttl_lt_of_stale c r t ht hstale hr2
    constructor
    · unfold SqliteCache.get
      rw [hlookup]
      dsimp only
      rw [if_pos heff]
    · unfold PostgresCache.get
      rw [hlookupP]
      dsimp only
      rw [if_pos heff]

theorem cache_get_after_set_witness :
    SqliteCache.get ⟨fun _ => "payload", fun _ => some (Json.str "hello")⟩ ⟨3600, 360⟩
      (SqliteCache.set ⟨fun _ => "payload", fun _ => some (Json.str "hello")⟩
        (fun _ => Option.none) "user_alice" (Json.str "hello") 1000)
      "user_alice" (1000 + 3000) 0
      = (some (Json.str "hello"),
         SqliteCache.set ⟨fun _ => "payload", fun _ => some (Json.str "hello")⟩
           (fun _ => Option.none) "user_alice" (Json.str "hello") 1000) ∧
    SqliteCache.get ⟨fun _ => "payload", fun _ => some (Json.str "hello")⟩ ⟨3600, 360⟩
      (SqliteCache.set ⟨fun _ => "payload", fun _ => some (Json.str "hello")⟩
        (fun _ => Option.none) "user_alice" (Json.str "hello") 1000)
      "user_alice" (1000 + 4000) 0
      = (Option.none,
         fun k2 => if k2 = "user_alice" then Option.none
                   else SqliteCache.set ⟨fun _ => "payload", fun _ => some (Json.str "hello")⟩
                          (fun _ => Option.none) "user_alice" (Json.str "hello") 1000 k2) := by
  constructor
  · exact ((cache_get_after_set_fresh_and_expired
      ⟨fun _ => "payload", fun _ => some (Json.str "hello")⟩ ⟨3600, 360⟩
      (fun _ => Option.none) "user_alice" (Json.str "hello") 1000 3000 0
      (by norm_num) (by norm_num) (by norm_num) rfl).1 (by norm_num)).1
  · exact ((cache_get_after_set_fresh_and_expired
      ⟨fun _ => "payload", fun _ => some (Json.str "hello")⟩ ⟨3600, 360⟩
      (fun _ => Option.none) "user_alice" (Json.str "hello") 1000 4000 0
      (by norm_num) (by norm_num) (by norm_num) rfl).2 (by norm_num)).1

/-- C7: `clear_expired()` (both backends) keeps every entry whose age
`now − writeTimestamp` is at most `ttl + jitter` exactly as it was, and an
entry is removed only when it is strictly older than that bound. -/
theorem clear_expired_preserves_fresh_entries
    (c : CacheCfg) (db : CacheDb) (now : Int) (k : String) :
    (∀ v ts, db k = some (v, ts) → now - ts ≤ c.ttl + c.ttl_jitter →
      SqliteCache.clear_expired c db now k = some (v, ts) ∧
      PostgresCache.clear_expired c db now k = some (v, ts)) ∧
    (SqliteCache.clear_expired c db now k = Option.none →
      db k = Option.none ∨
        ∃ v ts, db k = some (v, ts) ∧ now - ts > c.ttl + c.ttl_jitter) ∧
    (PostgresCache.clear_expired c db now k = Option.none →
      db k = Option.none ∨
        ∃ v ts, db k = some (v, ts) ∧ now - ts > c.ttl + c.ttl_jitter) := by
  refine ⟨?_, ?_, ?_⟩
  · intro v ts hdb hfresh
    constructor
    · unfold SqliteCache.clear_expired
      rw [hdb]
      dsimp only
      rw [if_neg (by omega)]
    · unfold PostgresCache.clear_expired
      rw [hdb]
      dsimp only
      rw [if_neg (by omega)]
  · intro hclear
    unfold SqliteCache.clear_expired at hclear
    cases hdb : db k with
    | none => exact Or.inl rfl
    | some p =>
      obtain ⟨v, ts⟩ := p
      rw [hdb] at hclear
      dsimp only at hclear
      by_cases hc : now - ts > c.ttl + c.ttl_jitter
      · exact Or.inr ⟨v, ts, rfl, hc⟩
      · rw [if_neg hc] at hclear
        exact absurd hclear (by simp)
  · intro hclear
    unfold PostgresCache.clear_expired at hclear
    cases hdb : db k with
    | none => exact Or.inl rfl
    | some p =>
      obtain ⟨v, ts⟩ := p
      rw [hdb] at hclear
      dsimp only at hclear
      by_cases hc : ts < now - (c.ttl + c.ttl_jitter)
      · exact Or.inr ⟨v, ts, rfl, by omega⟩
      · rw [if_neg hc] at hclear
        exact absurd hclear (by simp)

theorem clear_expired_preserves_fresh_entries_witness :
    SqliteCache.clear_expired ⟨3600, 360⟩
      (fun k => if k = "user_alice" then some ("payload", 1000) else Option.none)
      2000 "user_alice" = some ("payload", 1000) ∧
    PostgresCache.clear_expired ⟨3600, 360⟩
      (fun k => if k = "user_alice" then some ("payload", 1000) else Option.none)
      2000 "user_alice" = some ("payload", 1000) := by
  exact (clear_expired_preserves_fresh_entries ⟨3600, 360⟩
    (fun k => if k = "user_alice" then some ("payload", 1000) else Option.none)
    2000 "user_alice").1 "payload" 1000 (by norm_num) (by norm_num)

/-! ## Upstream failure classification -/

/-- Characterization of an `errors` array whose items are objects carrying
string `message` fields, with the extracted messages. -/
def errMsgList : List Json → Option (List String)
  | [] => some []
  | Json.obj fs :: rest =>
    match Json.lookupField fs "message" with
    | some (Json.str s) => (errMsgList rest).map (fun ms => s :: ms)
    | _ => Option.none
  | _ :: _ => Option.none

theorem joinErrMsgsLoop_eq_of_errMsgList (es : List Json) (msgs : List String) :
    errMsgList es = some msgs →
      ∀ acc, joinErrMsgsLoop es acc = .ok (acc ++ msgs) := by
  induction es generalizing msgs with
  | nil =>
    intro h acc
    simp [errMsgList] at h
    subst h
    simp [joinErrMsgsLoop]
  | cons e rest ih =>
    intro h acc
    cases e with
    | obj fs =>
      simp only [errMsgList] at h
      cases hlk : Json.lookupField fs "message" with
      | none => rw [hlk] at h; exact absurd h (by simp)
      | some m =>
        cases m with
        | str s =>
          rw [hlk] at h
          dsimp only at h
          cases hrest : errMsgList rest with
          | none => rw [hrest] at h; exact absurd h (by simp)
          | some ms =>
            rw [hrest] at h
            obtain rfl : s :: ms = msgs := by simpa using h
            have hget : Json.getD (Json.obj fs) "message" (Json.str (pyRepr (Json.obj fs)))
                = .ok (Json.str s) := by
              unfold Json.getD
              dsimp only
              rw [hlk]
            have hstep : joinErrMsgsLoop (Json.obj fs :: rest) acc
                = joinErrMsgsLoop rest (acc ++ [s]) := by
              rw [joinErrMsgsLoop, hget]
              rfl
            rw [hstep, ih ms hrest (acc ++ [s])]
            simp
        | null => rw [hlk] at h; exact absurd h (by simp)
        | bool b => rw [hlk] at h; exact absurd h (by simp)
        | num n => rw [hlk] at h; exact absurd h (by simp)
        | arr l => rw [hlk] at h; exact absurd h (by simp)
        | obj fs2 => rw [hlk] at h; exact absurd h (by simp)
    | null => exact absurd h (by simp [errMsgList])
    | bool b => exact absurd h (by simp [errMsgList])
    | num n => exact absurd h (by simp [errMsgList])
    | str s => exact absurd h (by simp [errMsgList])
    | arr l => exact absurd h (by simp [errMsgList])

/-- C4 counterexample: a 200 response whose `errors` key holds an EMPTY
array still raises the Api-error kind (`TwitterAPIError` with the joined —
here empty — message list), because `_fetch` tests `"errors" in data`
rather than non-emptiness; so "a populated errors array, and only such a
response, raises an Api error" is false on the code. -/
theorem empty_errors_array_still_raises_api_error :
    TwitterClient.fetch (.ok ⟨200, "",
        Json.obj [("data", Json.obj [("ok", Json.bool true)]), ("errors", Json.arr [])]⟩)
      = .error (.twitterApiError "Twitter API error: " Option.none) ∧
    Json.subKey
        (Json.obj [("data", Json.obj [("ok", Json.bool true)]), ("errors", Json.arr [])])
        "errors"
      = .ok (Json.arr []) := by
  constructor
  · rfl
  · rfl

/-- C4 amended: HTTP 429 raises `RateLimitError`; HTTP 503 raises a plain
`TwitterAPIError` with message "Service unavailable" (a distinct outcome
from `RateLimitError` but the same exception class as Api errors); for a
non-error status, a body whose `errors` KEY IS PRESENT — even holding an
empty array — raises `TwitterAPIError` carrying the ", "-joined messages,
and a body without the key is returned unchanged. -/
theorem fetch_classification_amended (r : HttpResponse) :
    (r.status_code = 429 →
      TwitterClient.fetch (.ok r) = .error (.rateLimitError "Rate limit exceeded" (some 429))) ∧
    (r.status_code = 503 →
      TwitterClient.fetch (.ok r)
        = .error (.twitterApiError "Service unavailable" Option.none)) ∧
    (∀ fs es msgs, r.status_code < 400 → r.body = Json.obj fs →
      Json.lookupField fs "errors" = some (Json.arr es) →
      errMsgList es = some msgs →
      TwitterClient.fetch (.ok r)
        = .error (.twitterApiError
            ("Twitter API error: " ++ String.intercalate ", " msgs) Option.none)) ∧
    (∀ fs, r.status_code < 400 → r.body = Json.obj fs →
      Json.lookupField fs "errors" = Option.none →
      TwitterClient.fetch (.ok r) = .ok r.body) := by
  refine ⟨?_, ?_, ?_, ?_⟩
  · intro h429
    unfold TwitterClient.fetch
    dsimp only
    rw [if_pos h429]
  · intro h503
    unfold TwitterClient.fetch
    dsimp only
    rw [if_neg (by omega), if_pos h503]
  · intro fs es msgs hst hbody hlk hmsgs
    unfold TwitterClient.fetch
    dsimp only
    rw [if_neg (by omega), if_neg (by omega), if_neg (by omega)]
    have hcont : pyContains "errors" r.body = .ok true := by
      rw [hbody]
      unfold pyContains
      dsimp only
      rw [hlk]
      rfl
    rw [hcont]
    have hsub : r.body.subKey "errors" = .ok (Json.arr es) := by
      rw [hbody]
      unfold Json.subKey
      dsimp only
      rw [hlk]
    have hjoin := joinErrMsgsLoop_eq_of_errMsgList es msgs hmsgs []
    simp only [hsub, Json.iter, bind, Except.bind, hjoin, List.nil_append]
  · intro fs hst hbody hlk
    unfold TwitterClient.fetch
    dsimp only
    rw [if_neg (by omega), if_neg (by omega), if_neg (by omega)]
    have hcont : pyContains "errors" r.body = .ok false := by
      rw [hbody]
      unfold pyContains
      dsimp only
      rw [hlk]
      rfl
    rw [hcont]

theorem fetch_classification_amended_witness :
    TwitterClient.fetch (.ok ⟨429, "", Json.obj []⟩)
      = .error (.rateLimitError "Rate limit exceeded" (some 429)) ∧
    TwitterClient.fetch (.ok ⟨503, "", Json.obj []⟩)
      = .error (.twitterApiError "Service unavailable" Option.none) ∧
    TwitterClient.fetch (.ok ⟨200, "",
        Json.obj [("errors", Json.arr [Json.obj [("message", Json.str "Not authorized")],
                                       Json.obj [("message", Json.str "Over capacity")]])]⟩)
      = .error (.twitterApiError "Twitter API error: Not authorized, Over capacity"
          Option.none) ∧
    TwitterClient.fetch (.ok ⟨200, "", Json.obj [("data", Json.num 1)]⟩)
      = .ok (Json.obj [("data", Json.num 1)]) := by
  refine ⟨?_, ?_, ?_, ?_⟩
  · exact (fetch_classification_amended ⟨429, "", Json.obj []⟩).1 rfl
  · exact (fetch_classification_amended ⟨503, "", Json.obj []⟩).2.1 rfl
  · exact (fetch_classification_amended ⟨200, "",
        Json.obj [("errors", Json.arr [Json.obj [("message", Json.str "Not authorized")],
                                       Json.obj [("message", Json.str "Over capacity")]])]⟩).2.2.1
      [("errors", Json.arr [Json.obj [("message", Json.str "Not authorized")],
                            Json.obj [("message", Json.str "Over capacity")]])]
      [Json.obj [("message", Json.str "Not authorized")],
       Json.obj [("message", Json.str "Over capacity")]]
      ["Not authorized", "Over capacity"]
      (by decide) rfl rfl rfl
  · exact (fetch_classification_amended ⟨200, "", Json.obj [("data", Json.num 1)]⟩).2.2.2
      [("data", Json.num 1)] (by decide) rfl rfl

/-! ## Claim-level inputs and evaluations -/

/-- Environment with no parseable timestamps and normalizer time 0, used to
evaluate the parser on concrete inputs. -/
def envZero : PyEnv := ⟨fun _ => Option.none, 0⟩

/-- C5: on a tweet node (a known variant: a plain Tweet with a `legacy`
sub-object) whose `in_reply_to_status_id_str` is the non-numeric string
"abc", the normalizer raises `ValueError` from `int("abc")` — it has no
`isdigit` guard on the reply-to id, unlike the guarded sibling fields `id`
and `thread_id`; the same string in `conversation_id_str` degrades to 0 as
the spec describes. -/
theorem parse_tweet_raises_on_nonnumeric_reply_id :
    parse_tweet envZero
      (Json.obj [("rest_id", Json.str "1"),
                 ("legacy", Json.obj [("full_text", Json.str "hello"),
                                      ("in_reply_to_status_id_str", Json.str "abc")])])
      = .error (.valueError "invalid literal for int() with base 10") ∧
    parse_tweet envZero
      (Json.obj [("rest_id", Json.str "1"),
                 ("legacy", Json.obj [("full_text", Json.str "hello"),
                                      ("conversation_id_str", Json.str "abc")])])
      = .ok (some
          { id := 1, thread_id := 0, reply_id := 0,
            user := { id := "0", username := "unknown", fullname := "Unknown", join_date := 0 },
            text := "hello", time := 0, stats := {} }) := by
  constructor
  · rfl
  · rfl

/-! ## Timeline and profile invariants -/

theorem parse_timeline_inversion (env : PyEnv) (resp : Json) (tl : Timeline)
    (h : parse_timeline_from_graphql env resp = .ok tl) :
    ∃ tweets, parse_timeline_tweets env resp = .ok tweets ∧
      tl.content = tweets.map (fun x => [x]) ∧ tl.beginning = (tweets.length == 0) := by
  unfold parse_timeline_from_graphql at h
  split at h
  · exact absurd h (by simp)
  · rename_i tweets heq
    refine ⟨tweets, heq, ?_⟩
    split at h
    · exact absurd h (by simp)
    · split at h
      · exact absurd h (by simp)
      · split at h
        · exact absurd h (by simp)
        · injection h with h2
          subst h2
          exact ⟨rfl, rfl⟩

/-- C10: the parsed Timeline has `beginning = true` exactly when its
content list is empty (zero parsed Posts), whatever the response and the
cursor entries it contains. -/
theorem timeline_beginning_iff_no_tweets (env : PyEnv) (resp : Json) (tl : Timeline)
    (h : parse_timeline_from_graphql env resp = .ok tl) :
    tl.beginning = true ↔ tl.content = [] := by
  obtain ⟨tweets, _, hc, hb⟩ := parse_timeline_inversion env resp tl h
  rw [hb, hc]
  cases tweets with
  | nil => simp
  | cons t ts => simp

theorem timeline_beginning_iff_no_tweets_witness :
    (({ content := [], top := "", bottom := "", beginning := true } : Timeline).beginning = true
      ↔ ({ content := [], top := "", bottom := "", beginning := true } : Timeline).content = []) := by
  exact timeline_beginning_iff_no_tweets envZero
    (Json.obj [("data", Json.obj [("user_result", Json.obj [("result",
      Json.obj [("timeline_response", Json.obj [("timeline",
        Json.obj [("instructions", Json.arr [])])])])])])])
    { content := [], top := "", bottom := "", beginning := true } rfl

theorem findPinned_eq_find_flatten (l : List (List Tweet)) :
    findPinned l = l.flatten.find? (fun t => t.pinned) := by
  induction l with
  | nil => rfl
  | cons g gs ih =>
    have hgroup : ∀ (g2 : List Tweet),
        (match findPinnedInGroup g2 with
         | some t => some t
         | Option.none => findPinned gs)
          = (g2 ++ gs.flatten).find? (fun t => t.pinned) := by
      intro g2
      induction g2 with
      | nil => simpa using ih
      | cons t ts ihg =>
        by_cases hp : t.pinned
        · simp [findPinnedInGroup, hp, List.find?_cons_of_pos]
        · rw [List.cons_append, List.find?_cons_of_neg _ (by simp [hp])]
          rw [← ihg]
          simp [findPinnedInGroup, hp]
    rw [List.flatten_cons, ← hgroup g]
    rfl

theorem parse_profile_inversion (env : PyEnv) (resp : Json) (p : Profile)
    (h : parse_profile_from_graphql env resp = .ok p) :
    parse_timeline_from_graphql env resp = .ok p.tweets ∧
      p.pinned = findPinned p.tweets.content := by
  unfold parse_profile_from_graphql at h
  split at h
  · exact absurd h (by simp)
  · split at h
    · exact absurd h (by simp)
    · split at h
      · exact absurd h (by simp)
      · rename_i timeline heq
        injection h with h2
        subst h2
        exact ⟨heq, rfl⟩

/-- C9: whenever the assembled Profile has a present pinned Post, that Post
is flagged pinned, appears as a (singleton) group inside the Profile's
timeline content, and is the first pinned Post in content order. -/
theorem profile_pinned_first_in_content (env : PyEnv) (resp : Json) (p : Profile) (t : Tweet)
    (h : parse_profile_from_graphql env resp = .ok p)
    (hpin : p.pinned = some t) :
    [t] ∈ p.tweets.content ∧ t.pinned = true ∧
      p.tweets.content.flatten.find? (fun x => x.pinned) = some t := by
  obtain ⟨htl, hfind⟩ := parse_profile_inversion env resp p h
  rw [hpin, findPinned_eq_find_flatten] at hfind
  have hfind2 : p.tweets.content.flatten.find? (fun x => x.pinned) = some t := hfind.symm
  have hpinned : t.pinned = true := List.find?_some hfind2
  have hmem : t ∈ p.tweets.content.flatten := List.mem_of_find?_eq_some hfind2
  obtain ⟨tweets, hpt, hc, hb⟩ := parse_timeline_inversion env resp p.tweets htl
  have hmem2 : t ∈ tweets := by
    rw [hc] at hmem
    rcases List.mem_flatten.mp hmem with ⟨g, hg, htg⟩
    rcases List.mem_map.mp hg with ⟨x, hx, rfl⟩
    rcases List.mem_singleton.mp htg with rfl
    exact hx
  refine ⟨?_, hpinned, hfind2⟩
  rw [hc]
  exact List.mem_map.mpr ⟨t, hmem2, rfl⟩

/-! ## Constructed timeline responses (inputs for the timeline claims) -/

/-- A `TimelinePinEntry` instruction wrapping one tweet result node. -/
def mkPinInstruction (node : Json) : Json :=
  Json.obj [("__typename", Json.str "TimelinePinEntry"),
            ("entry", Json.obj [("content", Json.obj [("content",
              Json.obj [("tweetResult", Json.obj [("result", node)])])])])]

/-- A single-item (`TimelineTimelineItem`) entry of a bulk instruction. -/
def mkItemEntry (eid : String) (node : Json) : Json :=
  Json.obj [("entryId", Json.str eid),
            ("content", Json.obj [("__typename", Json.str "TimelineTimelineItem"),
              ("content", Json.obj [("tweetResult", Json.obj [("result", node)])])])]

/-- A `TimelineAddEntries` instruction over the given entries. -/
def mkAddEntries (entries : List Json) : Json :=
  Json.obj [("__typename", Json.str "TimelineAddEntries"),
            ("entries", Json.arr entries)]

/-- A full timeline response envelope with the given instruction list. -/
def mkTimelineResp (instructions : List Json) : Json :=
  Json.obj [("data", Json.obj [("user_result", Json.obj [("result",
    Json.obj [("timeline_response", Json.obj [("timeline",
      Json.obj [("instructions", Json.arr instructions)])])])])])]

/-- A minimal available tweet node: a rest id and a `legacy.full_text`. -/
def tweetNode (rid text : String) : Json :=
  Json.obj [("rest_id", Json.str rid),
            ("legacy", Json.obj [("full_text", Json.str text)])]

/-- The Tweet produced by `parse_tweet` under `envZero` on
`tweetNode rid text` when `rid` parses to `n`. -/
def plainTweet (n : Int) (text : String) : Tweet :=
  { id := n,
    user := { id := "0", username := "unknown", fullname := "Unknown", join_date := 0 },
    text := text, time := 0, stats := {} }

/-! ## One-step evaluation of the instruction loops on constructed inputs -/

theorem tlInstructionsLoop_pin_step (env : PyEnv) (node : Json) (rest : List Json)
    (acc : List Tweet) (tp : Tweet) (h : parse_tweet env node = .ok (some tp)) :
    tlInstructionsLoop env (mkPinInstruction node :: rest) acc
      = tlInstructionsLoop env rest (acc ++ [{ tp with pinned := true }]) := by
  have hstep : tlInstructionsLoop env (mkPinInstruction node :: rest) acc
      = (do
          match ← parse_tweet env node with
          | some t => tlInstructionsLoop env rest (acc ++ [{ t with pinned := true }])
          | Option.none => tlInstructionsLoop env rest acc) := rfl
  rw [hstep, h]
  rfl

theorem tlInstructionsLoop_add_step (env : PyEnv) (entriesL rest : List Json)
    (acc : List Tweet) :
    tlInstructionsLoop env (mkAddEntries entriesL :: rest) acc
      = (do
          let tweets2 ← tlEntriesLoop env entriesL acc
          tlInstructionsLoop env rest tweets2) := rfl

theorem tlEntriesLoop_item_step (env : PyEnv) (eid : String) (node : Json)
    (rest : List Json) (acc : List Tweet) (t : Tweet)
    (h : parse_tweet env node = .ok (some t)) :
    tlEntriesLoop env (mkItemEntry eid node :: rest) acc
      = tlEntriesLoop env rest (acc ++ [t]) := by
  have hstep : tlEntriesLoop env (mkItemEntry eid node :: rest) acc
      = (do
          match ← parse_tweet env node with
          | some t2 => tlEntriesLoop env rest (acc ++ [t2])
          | Option.none => tlEntriesLoop env rest acc) := rfl
  rw [hstep, h]
  rfl

theorem parse_profile_eval (env : PyEnv) (resp : Json) (ur : Json) (u : User) (tl : Timeline)
    (h1 : userResultNav resp = .ok ur)
    (h2 : ur.truthy = true)
    (h3 : parse_user env ur = .ok u)
    (h4 : parse_timeline_from_graphql env resp = .ok tl) :
    parse_profile_from_graphql env resp
      = .ok { user := u, pinned := findPinned tl.content, tweets := tl } := by
  unfold parse_profile_from_graphql
  rw [h1]
  dsimp only
  rw [h2, if_pos rfl, h3]
  dsimp only
  rw [h4]

/-- C2 counterexample: on exactly one pinned-entry instruction plus one
bulk-entries instruction holding two single-item entries (all three tweets
parse successfully), the timeline content list has THREE elements, not 2 —
the pinned tweet is appended to the timeline list before the two items. -/
theorem pin_plus_two_items_yields_three_groups :
    (parse_timeline_from_graphql envZero
        (mkTimelineResp [mkPinInstruction (tweetNode "100" "p"),
          mkAddEntries [mkItemEntry "tweet-a" (tweetNode "101" "a"),
                        mkItemEntry "tweet-b" (tweetNode "102" "b")]])).map
      (fun tl => tl.content.length)
      = .ok 3 := by
  rfl

/-- C2 amended: on one pinned-entry instruction (parsing to Post `tp`) plus
one bulk-entries instruction with two single-item entries (parsing to `ta`,
`tb`), the parser yields a THREE-element content list — the pinned Post
(flagged pinned) first, then the two items — and the assembled profile's
pinned Post equals the pinned instruction's Post flagged pinned. -/
theorem pin_plus_two_items_timeline_amended (env : PyEnv)
    (pinNode aNode bNode : Json) (tp ta tb : Tweet)
    (hpin : parse_tweet env pinNode = .ok (some tp))
    (ha : parse_tweet env aNode = .ok (some ta))
    (hb : parse_tweet env bNode = .ok (some tb)) :
    parse_timeline_from_graphql env
        (mkTimelineResp [mkPinInstruction pinNode,
          mkAddEntries [mkItemEntry "tweet-a" aNode, mkItemEntry "tweet-b" bNode]])
      = .ok { content := [[{ tp with pinned := true }], [ta], [tb]],
              top := "", bottom := "", beginning := false } ∧
    (parse_profile_from_graphql env
        (mkTimelineResp [mkPinInstruction pinNode,
          mkAddEntries [mkItemEntry "tweet-a" aNode, mkItemEntry "tweet-b" bNode]])).map
      (fun pr => pr.pinned)
      = .ok (some { tp with pinned := true }) := by
  have ht : parse_timeline_tweets env
      (mkTimelineResp [mkPinInstruction pinNode,
        mkAddEntries [mkItemEntry "tweet-a" aNode, mkItemEntry "tweet-b" bNode]])
      = .ok [{ tp with pinned := true }, ta, tb] := by
    have hnav : parse_timeline_tweets env
        (mkTimelineResp [mkPinInstruction pinNode,
          mkAddEntries [mkItemEntry "tweet-a" aNode, mkItemEntry "tweet-b" bNode]])
        = tlInstructionsLoop env
            [mkPinInstruction pinNode,
             mkAddEntries [mkItemEntry "tweet-a" aNode, mkItemEntry "tweet-b" bNode]] [] := rfl
    rw [hnav, tlInstructionsLoop_pin_step env pinNode _ _ tp hpin,
        tlInstructionsLoop_add_step,
        tlEntriesLoop_item_step env "tweet-a" aNode _ _ ta ha,
        tlEntriesLoop_item_step env "tweet-b" bNode _ _ tb hb]
    rfl
  have hcur : timelineCursorScan
      (mkTimelineResp [mkPinInstruction pinNode,
        mkAddEntries [mkItemEntry "tweet-a" aNode, mkItemEntry "tweet-b" bNode]])
      = .ok (Json.str "", Json.str "") := rfl
  have htl : parse_timeline_from_graphql env
      (mkTimelineResp [mkPinInstruction pinNode,
        mkAddEntries [mkItemEntry "tweet-a" aNode, mkItemEntry "tweet-b" bNode]])
      = .ok { content := [[{ tp with pinned := true }], [ta], [tb]],
              top := "", bottom := "", beginning := false } := by
    unfold parse_timeline_from_graphql
    rw [ht]
    dsimp only
    rw [hcur]
    rfl
  refine ⟨htl, ?_⟩
  have hprof := parse_profile_eval env
    (mkTimelineResp [mkPinInstruction pinNode,
      mkAddEntries [mkItemEntry "tweet-a" aNode, mkItemEntry "tweet-b" bNode]])
    (Json.obj [("timeline_response", Json.obj [("timeline",
      Json.obj [("instructions", Json.arr [mkPinInstruction pinNode,
        mkAddEntries [mkItemEntry "tweet-a" aNode, mkItemEntry "tweet-b" bNode]])])])])
    { id := "", username := "", fullname := "", join_date := env.now }
    { content := [[{ tp with pinned := true }], [ta], [tb]],
      top := "", bottom := "", beginning := false }
    rfl rfl rfl htl
  rw [hprof]
  rfl

theorem pin_plus_two_items_timeline_amended_witness :
    parse_timeline_from_graphql envZero
        (mkTimelineResp [mkPinInstruction (tweetNode "100" "p"),
          mkAddEntries [mkItemEntry "tweet-a" (tweetNode "101" "a"),
                        mkItemEntry "tweet-b" (tweetNode "102" "b")]])
      = .ok { content := [[{ plainTweet 100 "p" with pinned := true }],
                          [plainTweet 101 "a"], [plainTweet 102 "b"]],
              top := "", bottom := "", beginning := false } ∧
    (parse_profile_from_graphql envZero
        (mkTimelineResp [mkPinInstruction (tweetNode "100" "p"),
          mkAddEntries [mkItemEntry "tweet-a" (tweetNode "101" "a"),
                        mkItemEntry "tweet-b" (tweetNode "102" "b")]])).map
      (fun pr => pr.pinned)
      = .ok (some { plainTweet 100 "p" with pinned := true }) :=
  pin_plus_two_items_timeline_amended envZero
    (tweetNode "100" "p") (tweetNode "101" "a") (tweetNode "102" "b")
    (plainTweet 100 "p") (plainTweet 101 "a") (plainTweet 102 "b")
    rfl rfl rfl

theorem profile_pinned_first_in_content_witness :
    [({ plainTweet 101 "pinned post" with pinned := true } : Tweet)]
        ∈ ({ content := [[{ plainTweet 101 "pinned post" with pinned := true }]],
             top := "", bottom := "", beginning := false } : Timeline).content ∧
    ({ plainTweet 101 "pinned post" with pinned := true } : Tweet).pinned = true ∧
    ({ content := [[{ plainTweet 101 "pinned post" with pinned := true }]],
       top := "", bottom := "", beginning := false } : Timeline).content.flatten.find?
        (fun x => x.pinned)
      = some { plainTweet 101 "pinned post" with pinned := true } := by
  have hp := profile_pinned_first_in_content envZero
    (mkTimelineResp [mkPinInstruction (tweetNode "101" "pinned post")])
    { user := { id := "", username := "", fullname := "", join_date := 0 },
      pinned := some { plainTweet 101 "pinned post" with pinned := true },
      tweets := { content := [[{ plainTweet 101 "pinned post" with pinned := true }]],
                  top := "", bottom := "", beginning := false } }
    { plainTweet 101 "pinned post" with pinned := true }
    rfl rfl
  exact hp

/-! ## Request-handler structure -/

theorem get_user_data_shape (env : PyEnv) (up : Upstream) (sm : SessionManager)
    (username : String) (hidx : sm.current_index < sm.sessions.length) :
    ∃ r, get_user_data env up sm username
      = (r, ⟨sm.sessions, (sm.current_index + 1) % sm.sessions.length⟩,
         [UpstreamCall.userByScreenName
           (sm.sessions.get ⟨sm.current_index, hidx⟩).oauth_token username]) := by
  unfold get_user_data
  rw [get_session_eq sm.sessions sm.current_index hidx]
  dsimp only
  cases TwitterClient.fetch (up.userResp username) with
  | error e => exact ⟨_, rfl⟩
  | ok data =>
    dsimp only
    cases parse_user_from_graphql env data with
    | error e => exact ⟨_, rfl⟩
    | ok u => exact ⟨_, rfl⟩

theorem get_user_tweets_data_shape (up : Upstream) (sm : SessionManager)
    (user_id : String) (cursor : Option String)
    (hidx : sm.current_index < sm.sessions.length) :
    ∃ r, get_user_tweets_data up sm user_id cursor
      = (r, ⟨sm.sessions, (sm.current_index + 1) % sm.sessions.length⟩,
         [UpstreamCall.userTweets
           (sm.sessions.get ⟨sm.current_index, hidx⟩).oauth_token user_id cursor]) := by
  unfold get_user_tweets_data
  rw [get_session_eq sm.sessions sm.current_index hidx]
  dsimp only
  cases TwitterClient.fetch (up.tweetsResp user_id cursor) with
  | error e => exact ⟨_, rfl⟩
  | ok data => exact ⟨_, rfl⟩

theorem profile_cache_invariance (env : PyEnv) (up : Upstream) (sm : SessionManager)
    (cache cache2 : CacheDb) (username : String) (cursor : Option String) :
    (get_profile_timeline env up ⟨sm, cache2⟩ username cursor).1
      = (get_profile_timeline env up ⟨sm, cache⟩ username cursor).1 ∧
    (get_profile_timeline env up ⟨sm, cache2⟩ username cursor).2.2
      = (get_profile_timeline env up ⟨sm, cache⟩ username cursor).2.2 ∧
    (get_profile_timeline env up ⟨sm, cache⟩ username cursor).2.1.cache = cache := by
  unfold get_profile_timeline
  dsimp only
  rcases get_user_data env up sm username with ⟨r1, sm2, calls1⟩
  cases r1 with
  | error e => exact ⟨rfl, rfl, rfl⟩
  | ok u? =>
    cases u? with
    | none => exact ⟨rfl, rfl, rfl⟩
    | some user =>
      dsimp only
      rcases get_user_tweets_data up sm2 user.id cursor with ⟨r2, sm3, calls2⟩
      cases r2 with
      | error e => exact ⟨rfl, rfl, rfl⟩
      | ok tr =>
        dsimp only
        cases parse_profile_from_graphql env tr with
        | error e => exact ⟨rfl, rfl, rfl⟩
        | ok profile => exact ⟨rfl, rfl, rfl⟩

theorem status_cache_invariance (env : PyEnv) (up : Upstream) (sm : SessionManager)
    (cache cache2 : CacheDb) (handle : String) :
    (get_user_status env up ⟨sm, cache2⟩ handle).1
      = (get_user_status env up ⟨sm, cache⟩ handle).1 ∧
    (get_user_status env up ⟨sm, cache2⟩ handle).2.2
      = (get_user_status env up ⟨sm, cache⟩ handle).2.2 ∧
    (get_user_status env up ⟨sm, cache⟩ handle).2.1.cache = cache := by
  unfold get_user_status
  dsimp only
  rcases get_user_data env up sm handle with ⟨r1, sm2, calls1⟩
  cases r1 with
  | error e => exact ⟨rfl, rfl, rfl⟩
  | ok u? =>
    cases u? with
    | none => exact ⟨rfl, rfl, rfl⟩
    | some user => exact ⟨rfl, rfl, rfl⟩

/-- C1: the handlers never consult the cache.  With a valid rotation index,
`get_profile_timeline` and `get_user_status` always perform at least one
upstream call — whatever the cache contains, including a fresh entry for
this very request — the response and the upstream-call trace are
independent of the cache contents, and the cache is left untouched.  The
`PostgresCache` created in `lifespan` is assigned to
`twitter_client._cache` but no code path ever reads it. -/
theorem gateway_always_calls_upstream_and_ignores_cache
    (env : PyEnv) (up : Upstream) (sm : SessionManager) (cache : CacheDb)
    (username handle : String) (cursor : Option String)
    (hidx : sm.current_index < sm.sessions.length) :
    (get_profile_timeline env up ⟨sm, cache⟩ username cursor).2.2 ≠ [] ∧
    (get_profile_timeline env up ⟨sm, cache⟩ username cursor).2.1.cache = cache ∧
    (∀ cache2,
      (get_profile_timeline env up ⟨sm, cache2⟩ username cursor).1
        = (get_profile_timeline env up ⟨sm, cache⟩ username cursor).1 ∧
      (get_profile_timeline env up ⟨sm, cache2⟩ username cursor).2.2
        = (get_profile_timeline env up ⟨sm, cache⟩ username cursor).2.2) ∧
    (get_user_status env up ⟨sm, cache⟩ handle).2.2 ≠ [] ∧
    (get_user_status env up ⟨sm, cache⟩ handle).2.1.cache = cache ∧
    (∀ cache2,
      (get_user_status env up ⟨sm, cache2⟩ handle).1
        = (get_user_status env up ⟨sm, cache⟩ handle).1 ∧
      (get_user_status env up ⟨sm, cache2⟩ handle).2.2
        = (get_user_status env up ⟨sm, cache⟩ handle).2.2) := by
  have hlen : 0 < sm.sessions.length := by omega
  have hidx2 : (sm.current_index + 1) % sm.sessions.length < sm.sessions.length :=
    Nat.mod_lt _ hlen
  obtain ⟨r1, hud⟩ := get_user_data_shape env up sm username hidx
  obtain ⟨r1s, huds⟩ := get_user_data_shape env up sm handle hidx
  refine ⟨?_, (profile_cache_invariance env up sm cache cache username cursor).2.2, ?_, ?_,
    (status_cache_invariance env up sm cache cache handle).2.2, ?_⟩
  · unfold get_profile_timeline
    dsimp only
    rw [hud]
    cases r1 with
    | error e => simp
    | ok u? =>
      cases u? with
      | none => simp
      | some user =>
        dsimp only
        obtain ⟨r2, hutd⟩ := get_user_tweets_data_shape up
          ⟨sm.sessions, (sm.current_index + 1) % sm.sessions.length⟩ user.id cursor hidx2
        rw [hutd]
        cases r2 with
        | error e => simp
        | ok tr =>
          dsimp only
          cases parse_profile_from_graphql env tr with
          | error e => simp
          | ok profile => simp
  · intro cache2
    exact ⟨(profile_cache_invariance env up sm cache cache2 username cursor).1,
           (profile_cache_invariance env up sm cache cache2 username cursor).2.1⟩
  · unfold get_user_status
    dsimp only
    rw [huds]
    cases r1s with
    | error e => simp
    | ok u? =>
      cases u? with
      | none => simp
      | some user => simp
  · intro cache2
    exact ⟨(status_cache_invariance env up sm cache cache2 handle).1,
           (status_cache_invariance env up sm cache cache2 handle).2.1⟩

/-- Upstream stub whose account lookup resolves no user and whose timeline
lookup returns an empty timeline. -/
def upC1 : Upstream :=
  ⟨fun _ => .ok ⟨200, "", Json.obj [("data", Json.obj [])]⟩,
   fun _ _ => .ok ⟨200, "", mkTimelineResp []⟩⟩

/-- A cache that holds a fresh-looking entry under every key, so in
particular under whatever key a request could derive. -/
def cacheC1 : CacheDb := fun _ => some ("cached-json-payload", 0)

theorem gateway_always_calls_upstream_witness :
    (get_profile_timeline envZero upC1 ⟨⟨[⟨"tok", "sec"⟩], 0⟩, cacheC1⟩
        "alice" Option.none).2.2 ≠ [] ∧
    (get_profile_timeline envZero upC1 ⟨⟨[⟨"tok", "sec"⟩], 0⟩, cacheC1⟩
        "alice" Option.none).2.1.cache = cacheC1 ∧
    (get_user_status envZero upC1 ⟨⟨[⟨"tok", "sec"⟩], 0⟩, cacheC1⟩ "alice").2.2 ≠ [] := by
  have h := gateway_always_calls_upstream_and_ignores_cache envZero upC1
    ⟨[⟨"tok", "sec"⟩], 0⟩ cacheC1 "alice" "alice" Option.none (by decide)
  exact ⟨h.1, h.2.1, h.2.2.2.1⟩

/-! ## Absent and suspended accounts in `get_profile_timeline` -/

/-- Upstream stub returning a suspended (`UserUnavailable`) account and an
empty timeline. -/
def upC3 : Upstream :=
  ⟨fun _ => .ok ⟨200, "",
     Json.obj [("data", Json.obj [("user_result", Json.obj [("result",
       Json.obj [("__typename", Json.str "UserUnavailable"),
                 ("rest_id", Json.str "7"),
                 ("legacy", Json.obj [("screen_name", Json.str "alice")])])])])]⟩,
   fun _ _ => .ok ⟨200, "", mkTimelineResp []⟩⟩

/-- C3 counterexample: on a suspended account (`__typename =
"UserUnavailable"`, so the parsed user has `suspended = true`),
`get_profile_timeline` does NOT fail — there is no suspended check and no
403 anywhere in the handler — it returns a full Profile whose user is the
suspended account. -/
theorem suspended_account_returns_profile :
    ((get_profile_timeline envZero upC3
        ⟨⟨[⟨"tok", "sec"⟩], 0⟩, fun _ => Option.none⟩ "alice" Option.none).1).map
      (fun p => (p.user.suspended, p.user.id, p.user.username))
      = .ok (true, "7", "alice") := by
  rfl

/-- C3 amended: `get_profile_timeline` fails with HTTP 404 whenever the
account resolves to absent; there is no suspended check — whenever the
account resolves to a user `u` (suspended or not) and the timeline fetch
and parse succeed, the handler returns the Profile overlaid with `u`, even
when `u.suspended = true`. -/
theorem profile_404_on_absent_and_no_suspended_check
    (env : PyEnv) (up : Upstream) (sm : SessionManager) (cache : CacheDb)
    (username : String) (cursor : Option String)
    (hidx : sm.current_index < sm.sessions.length) :
    (∀ d, TwitterClient.fetch (up.userResp username) = .ok d →
      parse_user_from_graphql env d = .ok Option.none →
      (get_profile_timeline env up ⟨sm, cache⟩ username cursor).1
        = .error ⟨404, "User @" ++ username ++ " is absent"⟩) ∧
    (∀ d u d2 p, TwitterClient.fetch (up.userResp username) = .ok d →
      parse_user_from_graphql env d = .ok (some u) →
      u.suspended = true →
      TwitterClient.fetch (up.tweetsResp u.id cursor) = .ok d2 →
      parse_profile_from_graphql env d2 = .ok p →
      (get_profile_timeline env up ⟨sm, cache⟩ username cursor).1
        = .ok { p with user := u }) := by
  have hlen : 0 < sm.sessions.length := by omega
  have hidx2 : (sm.current_index + 1) % sm.sessions.length < sm.sessions.length :=
    Nat.mod_lt _ hlen
  constructor
  · intro d hfetch hparse
    have hud : get_user_data env up sm username
        = (.ok Option.none, ⟨sm.sessions, (sm.current_index + 1) % sm.sessions.length⟩,
           [UpstreamCall.userByScreenName
             (sm.sessions.get ⟨sm.current_index, hidx⟩).oauth_token username]) := by
      unfold get_user_data
      rw [get_session_eq sm.sessions sm.current_index hidx]
      dsimp only
      rw [hfetch]
      dsimp only
      rw [hparse]
    unfold get_profile_timeline
    dsimp only
    rw [hud]
  · intro d u d2 p hfetch hparse hsusp hfetch2 hparse2
    have hud : get_user_data env up sm username
        = (.ok (some u), ⟨sm.sessions, (sm.current_index + 1) % sm.sessions.length⟩,
           [UpstreamCall.userByScreenName
             (sm.sessions.get ⟨sm.current_index, hidx⟩).oauth_token username]) := by
      unfold get_user_data
      rw [get_session_eq sm.sessions sm.current_index hidx]
      dsimp only
      rw [hfetch]
      dsimp only
      rw [hparse]
    have hutd : get_user_tweets_data up
        ⟨sm.sessions, (sm.current_index + 1) % sm.sessions.length⟩ u.id cursor
        = (.ok d2,
           ⟨sm.sessions, ((sm.current_index + 1) % sm.sessions.length + 1) % sm.sessions.length⟩,
           [UpstreamCall.userTweets
             (sm.sessions.get ⟨(sm.current_index + 1) % sm.sessions.length, hidx2⟩).oauth_token
             u.id cursor]) := by
      unfold get_user_tweets_data
      rw [get_session_eq sm.sessions ((sm.current_index + 1) % sm.sessions.length) hidx2]
      dsimp only
      rw [hfetch2]
    unfold get_profile_timeline
    dsimp only
    rw [hud]
    dsimp only
    rw [hutd]
    dsimp only
    rw [hparse2]

/-- Upstream stub whose account lookup resolves no user (empty `data`). -/
def upAbsentC3 : Upstream :=
  ⟨fun _ => .ok ⟨200, "", Json.obj [("data", Json.obj [])]⟩,
   fun _ _ => .ok ⟨200, "", mkTimelineResp []⟩⟩

theorem profile_404_and_suspended_witness :
    (get_profile_timeline envZero upAbsentC3
        ⟨⟨[⟨"tok", "sec"⟩], 0⟩, fun _ => Option.none⟩ "bob" Option.none).1
      = .error ⟨404, "User @bob is absent"⟩ ∧
    (get_profile_timeline envZero upC3
        ⟨⟨[⟨"tok", "sec"⟩], 0⟩, fun _ => Option.none⟩ "alice" Option.none).1
      = .ok { user := { id := "7", username := "alice", fullname := "",
                        suspended := true, join_date := 0 },
              pinned := Option.none,
              tweets := { content := [], top := "", bottom := "", beginning := true } } := by
  constructor
  · exact (profile_404_on_absent_and_no_suspended_check envZero upAbsentC3
      ⟨[⟨"tok", "sec"⟩], 0⟩ (fun _ => Option.none) "bob" Option.none (by decide)).1
      (Json.obj [("data", Json.obj [])]) rfl rfl
  · exact (profile_404_on_absent_and_no_suspended_check envZero upC3
      ⟨[⟨"tok", "sec"⟩], 0⟩ (fun _ => Option.none) "alice" Option.none (by decide)).2
      (Json.obj [("data", Json.obj [("user_result", Json.obj [("result",
        Json.obj [("__typename", Json.str "UserUnavailable"),
                  ("rest_id", Json.str "7"),
                  ("legacy", Json.obj [("screen_name", Json.str "alice")])])])])])
      { id := "7", username := "alice", fullname := "", suspended := true, join_date := 0 }
      (mkTimelineResp [])
      { user := { id := "", username := "", fullname := "", join_date := 0 },
        pinned := Option.none,
        tweets := { content := [], top := "", bottom := "", beginning := true } }
      rfl rfl rfl rfl rfl
